import Mathlib

/-!
# Verification of the tabular-schema / date-reformatting repository

Shallow embedding of the repository:

* `src/src/src/domain/model.py` — the pandera `DataFrameSchema` with two
  columns: `name` (str, non-null, element-wise check `len(s) > 0`) and
  `age` (int, non-null, check `x > 0`).
* `src/src/main.py` — `convert_date_format(date_str, from_format, to_format)`
  which is `datetime.strptime(date_str, from_format).strftime(to_format)`,
  and a demo driver calling `schema.validate` on a sample DataFrame.

Tables are embedded as lists of named columns of tagged values; the
external pandera validation engine is modelled from the spec (see
`validate` below).  Dates are embedded with the calendar-relevant part of
CPython `_strptime` (regex-based parsing with its exact alternations and
left-to-right backtracking, full-match requirement, defaults year 1900 /
month 1 / day 1, and the calendar-validity check performed by `date`
construction) and of `strftime` on glibc (unpadded `%Y`, zero-padded
2-digit `%m` and `%d`).
-/

namespace HypothesisSandbox

/-! ## Tabular data model -/

/-- Canonical pandas element types that matter to the schema:
`int64` for integer columns, `object` for text columns. -/
inductive Dtype where
  | int64
  | object
  | other
deriving DecidableEq, Repr

/-- A cell value of a DataFrame: a string, an integer, or null (`NaN`/`None`). -/
inductive Value where
  | vstr (s : String)
  | vint (n : Int)
  | vnull
deriving DecidableEq, Repr

/-- A named column: its name, its element type, and its cell values. -/
structure Col where
  cname : String
  dtype : Dtype
  values : List Value
deriving DecidableEq, Repr

/-- A DataFrame: an ordered list of named columns. -/
abbrev Table := List Col

/-- Column lookup by name, as `df["name"]`. -/
def findCol (t : Table) (n : String) : Option Col :=
  List.find? (fun c => c.cname = n) t

/-- Number of columns of the table (`df.shape[1]`). -/
def nCols (t : Table) : Nat := List.length t

/-- Number of rows of the table (`df.shape[0]`): the length of its first
column (0 for a table with no columns). -/
def nRows (t : Table) : Nat :=
  match t with
  | [] => 0
  | c :: _ => c.values.length

/-- The `name` column's per-element requirement from the schema
(`src/src/src/domain/model.py`): a non-null string `s` with `len(s) > 0`. -/
def nameOk (v : Value) : Bool :=
  match v with
  | Value.vstr s => 0 < s.length
  | _ => false

/-- Largest 64-bit signed integer, `2^63 - 1`. -/
def int64Max : Int := 9223372036854775807

/-- Smallest 64-bit signed integer, `-2^63`. -/
def int64Min : Int := -9223372036854775808

/-- The `age` column's per-element requirement from the schema
(`src/src/src/domain/model.py`): a non-null integer representable in the
column's `int64` element type, satisfying the check `x > 0`. -/
def ageOk (v : Value) : Bool :=
  match v with
  | Value.vint n => int64Min ≤ n && n ≤ int64Max && 0 < n
  | _ => false

/-- The single failure kind raised by schema validation
(`pandera.errors.SchemaError`). -/
inductive SchemaError where
  | schemaError
deriving DecidableEq, Repr

/-- Coercion of a column's element type to its canonical representation:
the schema declares `name : str` (canonical pandas dtype `object`) and
`age : int` (canonical pandas dtype `int64`); undeclared columns are
untouched.  Values are never changed. -/
def coerceCol (c : Col) : Col :=
  if c.cname = "name" then { c with dtype := Dtype.object }
  else if c.cname = "age" then { c with dtype := Dtype.int64 }
  else c

/-- Modelled from the spec: the validation engine (pandera's
`DataFrameSchema.validate`) is an external library collaborator, not part
of this repository; only the schema declaration is.  Per the spec's
Validator contract: validation fails with `SchemaError` when a declared
column is missing, a value is null where nullability is false, a value
fails its type check, or a value fails its predicate; on success every
value satisfies its declared constraints, output row/column count equals
input row/column count (so undeclared columns pass through), and column
element types are coerced to canonical representations. -/
def validate (t : Table) : Except SchemaError Table :=
  match findCol t "name", findCol t "age" with
  | some cn, some ca =>
      if cn.values.all nameOk && ca.values.all ageOk then
        Except.ok (List.map coerceCol t)
      else
        Except.error SchemaError.schemaError
  | _, _ => Except.error SchemaError.schemaError

/-- A `name` column satisfying the spec's hypothesis: every value is a
non-empty string. -/
def nameColGood (c : Col) : Prop :=
  ∀ v ∈ c.values, ∃ s, v = Value.vstr s ∧ 0 < s.length

/-- An `age` column satisfying the spec's hypothesis: every value is a
positive whole number no greater than the largest 64-bit signed integer. -/
def ageColGood (c : Col) : Prop :=
  ∀ v ∈ c.values, ∃ n, v = Value.vint n ∧ 0 < n ∧ n ≤ int64Max

/-- The demo driver's sample table from `src/src/main.py`:
`{"name": ["Alice", "Bob", "Charlie"], "age": [30, 25, 35]}`. -/
def sampleTable : Table :=
  [ ⟨"name", Dtype.object, [Value.vstr "Alice", Value.vstr "Bob", Value.vstr "Charlie"]⟩,
    ⟨"age", Dtype.int64, [Value.vint 30, Value.vint 25, Value.vint 35]⟩ ]

/-! ### Helper lemmas about `validate` -/

theorem coerceCol_cname (c : Col) : (coerceCol c).cname = c.cname := by
  unfold coerceCol
  split <;> try rfl
  split <;> rfl

theorem coerceCol_values (c : Col) : (coerceCol c).values = c.values := by
  unfold coerceCol
  split <;> try rfl
  split <;> rfl

theorem findCol_map_coerce (t : Table) (n : String) :
    findCol (List.map coerceCol t) n = Option.map coerceCol (findCol t n) := by
  unfold findCol
  rw [List.find?_map]
  have hp : ((fun c : Col => decide (c.cname = n)) ∘ coerceCol) =
      fun c : Col => decide (c.cname = n) := by
    funext c
    simp [Function.comp, coerceCol_cname]
  rw [hp]

theorem nRows_map_coerce (t : Table) : nRows (List.map coerceCol t) = nRows t := by
  cases t with
  | nil => rfl
  | cons c cs => simp [nRows, coerceCol_values]

theorem validate_ok_eq (t t' : Table) (h : validate t = Except.ok t') :
    t' = List.map coerceCol t := by
  unfold validate at h
  cases hn : findCol t "name" <;> cases ha : findCol t "age" <;>
      rw [hn, ha] at h
  · simp at h
  · simp at h
  · simp at h
  · split at h
    · split at h
      · injection h with h2
        exact h2.symm
      · simp at h
    · rename_i x
      exact (x _ _ rfl rfl).elim

theorem validate_eq_of_cols (t : Table) (cn ca : Col)
    (hn : findCol t "name" = some cn) (ha : findCol t "age" = some ca) :
    validate t =
      if (cn.values.all nameOk && ca.values.all ageOk) = true then
        Except.ok (List.map coerceCol t)
      else Except.error SchemaError.schemaError := by
  unfold validate
  rw [hn, ha]

theorem validate_missing_name (t : Table) (h : findCol t "name" = none) :
    validate t = Except.error SchemaError.schemaError := by
  unfold validate
  rw [h]

theorem validate_missing_age (t : Table) (h : findCol t "age" = none) :
    validate t = Except.error SchemaError.schemaError := by
  unfold validate
  cases hnn : findCol t "name" <;> rw [h]

theorem validate_ok_of_good (t : Table) (cn ca : Col)
    (hn : findCol t "name" = some cn) (ha : findCol t "age" = some ca)
    (h1 : nameColGood cn) (h2 : ageColGood ca) :
    validate t = Except.ok (List.map coerceCol t) := by
  rw [validate_eq_of_cols t cn ca hn ha, if_pos]
  rw [Bool.and_eq_true]
  constructor
  · rw [List.all_eq_true]
    intro v hv
    obtain ⟨s, rfl, hs⟩ := h1 v hv
    simp [nameOk, hs]
  · rw [List.all_eq_true]
    intro v hv
    obtain ⟨n, rfl, hpos, hle⟩ := h2 v hv
    simp only [int64Max] at hle
    simp only [ageOk, int64Min, int64Max, Bool.and_eq_true, decide_eq_true_eq]
    omega

theorem findCol_cname (t : Table) (n : String) (c : Col)
    (h : findCol t n = some c) : c.cname = n := by
  unfold findCol at h
  have := List.find?_some h
  simpa using this

theorem coerceCol_dtype_name (c : Col) (h : c.cname = "name") :
    (coerceCol c).dtype = Dtype.object := by
  simp [coerceCol, h]

theorem coerceCol_dtype_age (c : Col) (h : c.cname = "age") :
    (coerceCol c).dtype = Dtype.int64 := by
  simp [coerceCol, h]

/-! ### Claim theorems about validation -/

/-- C1: for every table in which every `name` value is a non-empty string
and every `age` value is a positive whole number no greater than the
largest 64-bit signed integer, validating the table against the schema
succeeds and returns a table whose row count and column count equal those
of the input. -/
theorem c1_valid_table_validates (t : Table) (cn ca : Col)
    (hn : findCol t "name" = some cn) (ha : findCol t "age" = some ca)
    (h1 : nameColGood cn) (h2 : ageColGood ca) :
    ∃ t', validate t = Except.ok t' ∧ nRows t' = nRows t ∧ nCols t' = nCols t := by
  refine ⟨List.map coerceCol t, validate_ok_of_good t cn ca hn ha h1 h2,
    nRows_map_coerce t, ?_⟩
  simp [nCols]

theorem c1_valid_table_validates_witness :
    ∃ t', validate sampleTable = Except.ok t' ∧
      nRows t' = nRows sampleTable ∧ nCols t' = nCols sampleTable :=
  c1_valid_table_validates sampleTable
    ⟨"name", Dtype.object, [Value.vstr "Alice", Value.vstr "Bob", Value.vstr "Charlie"]⟩
    ⟨"age", Dtype.int64, [Value.vint 30, Value.vint 25, Value.vint 35]⟩
    (by decide) (by decide)
    (by intro v hv; fin_cases hv <;> exact ⟨_, rfl, by decide⟩)
    (by intro v hv; fin_cases hv <;> exact ⟨_, rfl, by decide, by decide⟩)

/-- C3: for every table that contains at least one empty-string `name`
value or at least one `age` value less than or equal to zero, validating
the table against the schema fails with a `SchemaError`. -/
theorem c3_bad_value_rejected (t : Table)
    (h : (∃ cn, findCol t "name" = some cn ∧ Value.vstr "" ∈ cn.values) ∨
         (∃ ca n, findCol t "age" = some ca ∧ Value.vint n ∈ ca.values ∧ n ≤ 0)) :
    validate t = Except.error SchemaError.schemaError := by
  rcases h with ⟨cn, hn, hmem⟩ | ⟨ca, n, ha, hmem, hneg⟩
  · cases haa : findCol t "age" with
    | none => exact validate_missing_age t haa
    | some ca =>
      rw [validate_eq_of_cols t cn ca hn haa, if_neg]
      intro hc
      rw [Bool.and_eq_true] at hc
      have hv := List.all_eq_true.mp hc.1 _ hmem
      simp [nameOk] at hv
  · cases hnn : findCol t "name" with
    | none => exact validate_missing_name t hnn
    | some cn =>
      rw [validate_eq_of_cols t cn ca hnn ha, if_neg]
      intro hc
      rw [Bool.and_eq_true] at hc
      have hv := List.all_eq_true.mp hc.2 _ hmem
      simp only [ageOk, int64Min, int64Max, Bool.and_eq_true, decide_eq_true_eq] at hv
      omega

/-- The spec's second concrete scenario:
`{"name": ["", "Bob", "Charlie"], "age": [0, -5, 35]}`. -/
def badTable : Table :=
  [ ⟨"name", Dtype.object, [Value.vstr "", Value.vstr "Bob", Value.vstr "Charlie"]⟩,
    ⟨"age", Dtype.int64, [Value.vint 0, Value.vint (-5), Value.vint 35]⟩ ]

theorem c3_bad_value_rejected_witness :
    validate badTable = Except.error SchemaError.schemaError :=
  c3_bad_value_rejected badTable
    (Or.inl ⟨⟨"name", Dtype.object, [Value.vstr "", Value.vstr "Bob", Value.vstr "Charlie"]⟩,
      by decide, by decide⟩)

/-- C4: for every table that does not contain an `age` column, validating
the table against the schema fails with a `SchemaError`. -/
theorem c4_missing_age_rejected (t : Table) (h : findCol t "age" = none) :
    validate t = Except.error SchemaError.schemaError :=
  validate_missing_age t h

/-- The test's DataFrame with only a `name` column
(`test_invalid_dataframe_missing_column`). -/
def nameOnlyTable : Table :=
  [ ⟨"name", Dtype.object, [Value.vstr "Alice", Value.vstr "Bob", Value.vstr "Charlie"]⟩ ]

theorem c4_missing_age_rejected_witness :
    validate nameOnlyTable = Except.error SchemaError.schemaError :=
  c4_missing_age_rejected nameOnlyTable (by decide)

/-- C6: after any successful validation, the `age` column's element type
is the fixed-width 64-bit integer type and the `name` column's element
type is the generic text/object type. -/
theorem c6_dtypes_after_validate (t t' : Table) (h : validate t = Except.ok t')
    (cn ca : Col) (hn : findCol t' "name" = some cn) (ha : findCol t' "age" = some ca) :
    ca.dtype = Dtype.int64 ∧ cn.dtype = Dtype.object := by
  have ht' := validate_ok_eq t t' h
  subst ht'
  rw [findCol_map_coerce] at hn ha
  cases h1 : findCol t "name" <;> rw [h1] at hn
  · simp at hn
  · cases h2 : findCol t "age" <;> rw [h2] at ha
    · simp at ha
    · rename_i c0 c1
      simp only [Option.map_some'] at hn ha
      injection hn with hn
      injection ha with ha
      subst hn
      subst ha
      constructor
      · exact coerceCol_dtype_age c1 (findCol_cname t "age" c1 h2)
      · exact coerceCol_dtype_name c0 (findCol_cname t "name" c0 h1)

theorem c6_dtypes_after_validate_witness :
    (⟨"age", Dtype.int64, [Value.vint 30, Value.vint 25, Value.vint 35]⟩ : Col).dtype
        = Dtype.int64 ∧
    (⟨"name", Dtype.object, [Value.vstr "Alice", Value.vstr "Bob", Value.vstr "Charlie"]⟩ :
        Col).dtype = Dtype.object :=
  c6_dtypes_after_validate sampleTable (List.map coerceCol sampleTable) rfl
    ⟨"name", Dtype.object, [Value.vstr "Alice", Value.vstr "Bob", Value.vstr "Charlie"]⟩
    ⟨"age", Dtype.int64, [Value.vint 30, Value.vint 25, Value.vint 35]⟩
    (by decide) (by decide)

/-- C8: validation never alters table content: on success the returned
table has the same column names and the same cell values as the input
(only element types are coerced to their canonical representations), and
the shape is unchanged.  The input itself is untouched (`validate` is a
pure function of its argument), and on failure no table is produced
(`Except.error` carries no result). -/
theorem c8_validate_preserves_content (t t' : Table) (h : validate t = Except.ok t') :
    List.map (fun c => (c.cname, c.values)) t' = List.map (fun c => (c.cname, c.values)) t ∧
    nRows t' = nRows t ∧ nCols t' = nCols t := by
  have ht' := validate_ok_eq t t' h
  subst ht'
  refine ⟨?_, nRows_map_coerce t, by simp [nCols]⟩
  rw [List.map_map]
  have hp : ((fun c : Col => (c.cname, c.values)) ∘ coerceCol) =
      fun c : Col => (c.cname, c.values) := by
    funext c
    simp [Function.comp, coerceCol_cname, coerceCol_values]
  rw [hp]

theorem c8_validate_preserves_content_witness :
    List.map (fun c => (c.cname, c.values)) (List.map coerceCol sampleTable) =
      List.map (fun c => (c.cname, c.values)) sampleTable ∧
    nRows (List.map coerceCol sampleTable) = nRows sampleTable ∧
    nCols (List.map coerceCol sampleTable) = nCols sampleTable :=
  c8_validate_preserves_content sampleTable (List.map coerceCol sampleTable) rfl

/-- C9: a table whose `name` and `age` columns satisfy the declared
constraints and which additionally contains columns not declared in the
schema validates successfully, and the undeclared columns appear unchanged
in the returned table. -/
theorem c9_extra_columns_pass_through (t : Table) (cn ca : Col)
    (hn : findCol t "name" = some cn) (ha : findCol t "age" = some ca)
    (h1 : nameColGood cn) (h2 : ageColGood ca)
    (c : Col) (hc : c ∈ t) (hc1 : c.cname ≠ "name") (hc2 : c.cname ≠ "age") :
    ∃ t', validate t = Except.ok t' ∧ c ∈ t' := by
  refine ⟨List.map coerceCol t, validate_ok_of_good t cn ca hn ha h1 h2, ?_⟩
  have hid : coerceCol c = c := by
    simp [coerceCol, hc1, hc2]
  have hmem := List.mem_map_of_mem coerceCol hc
  rwa [hid] at hmem

/-- A valid table carrying an extra, undeclared `city` column. -/
def extraTable : Table :=
  [ ⟨"name", Dtype.object, [Value.vstr "Alice"]⟩,
    ⟨"age", Dtype.int64, [Value.vint 30]⟩,
    ⟨"city", Dtype.object, [Value.vstr "Paris"]⟩ ]

theorem c9_extra_columns_pass_through_witness :
    ∃ t', validate extraTable = Except.ok t' ∧
      (⟨"city", Dtype.object, [Value.vstr "Paris"]⟩ : Col) ∈ t' :=
  c9_extra_columns_pass_through extraTable
    ⟨"name", Dtype.object, [Value.vstr "Alice"]⟩
    ⟨"age", Dtype.int64, [Value.vint 30]⟩
    (by decide) (by decide)
    (by intro v hv; fin_cases hv <;> exact ⟨_, rfl, by decide⟩)
    (by intro v hv; fin_cases hv <;> exact ⟨_, rfl, by decide, by decide⟩)
    ⟨"city", Dtype.object, [Value.vstr "Paris"]⟩
    (by decide) (by decide) (by decide)

/-! ## Date model

`convert_date_format` in `src/src/main.py` is
`datetime.strptime(date_str, from_format).strftime(to_format)`.  The
calendar patterns the program handles are sequences of the directives
`%Y`, `%m`, `%d` and literal characters.  `strptime` (CPython
`Lib/_strptime.py`) compiles the format to a regex — `%Y` is
`\d\d\d\d` (exactly four digits), `%m` is `1[0-2]|0[1-9]|[1-9]`, `%d` is
`3[01]|[12]\d|0[1-9]|[1-9]` — matches it against the whole input
(leftmost-first alternatives with backtracking, and the match must consume
the entire string), defaults missing fields to year 1900 / month 1 /
day 1, and finally builds a `datetime`, which raises `ValueError` for a
non-existent calendar date.  A format that repeats a directive fails at
regex-compile time (duplicate group name), hence never parses.
`strftime` (glibc) prints `%Y` as the unpadded decimal year and `%m`,
`%d` as zero-padded two-digit numbers. -/

/-- The decimal digit character for `n < 10`. -/
def digitChar (n : Nat) : Char := Char.ofNat (48 + n)

/-- Is `c` a decimal digit? -/
def isDig (c : Char) : Bool := 48 ≤ c.toNat && c.toNat ≤ 57

/-- Numeric value of a digit character. -/
def digitVal (c : Char) : Nat := c.toNat - 48

/-- Decimal rendering with explicit fuel (structural recursion). -/
def toDec : Nat → Nat → List Char
  | 0, _ => []
  | fuel + 1, n =>
    if n < 10 then [digitChar n] else toDec fuel (n / 10) ++ [digitChar (n % 10)]

/-- Unpadded decimal rendering of a natural number, as Python `str(n)`. -/
def natStr (n : Nat) : List Char := toDec (n + 1) n

/-- Zero-padded two-digit rendering, as `strftime` prints `%m` and `%d`. -/
def pad2 (n : Nat) : List Char := if n < 10 then ['0', digitChar n] else natStr n

/-- One element of a calendar pattern: a `%Y`, `%m` or `%d` directive, or a
literal character. -/
inductive Token where
  | dirY
  | dirm
  | dird
  | lit (c : Char)
deriving DecidableEq, Repr

/-- The pattern `"%Y-%m-%d"`. -/
def fmtYmd : List Token :=
  [Token.dirY, Token.lit '-', Token.dirm, Token.lit '-', Token.dird]

/-- The pattern `"%d/%m/%Y"`. -/
def fmtDmY : List Token :=
  [Token.dird, Token.lit '/', Token.dirm, Token.lit '/', Token.dirY]

/-- The pattern `"%m-%d"` (no year directive). -/
def fmtMd : List Token := [Token.dirm, Token.lit '-', Token.dird]

/-- The pattern `"%Y-%m-%d-%Y"` (the `%Y` directive repeated). -/
def fmtYmdY : List Token :=
  [Token.dirY, Token.lit '-', Token.dirm, Token.lit '-', Token.dird,
   Token.lit '-', Token.dirY]

/-- The year/month/day fields collected while matching, `none` when the
corresponding directive has not consumed input. -/
structure DateFields where
  fy : Option Nat
  fm : Option Nat
  fd : Option Nat
deriving DecidableEq, Repr

def emptyFields : DateFields := ⟨none, none, none⟩

/-- `%Y` consumes exactly four digits (regex `\d\d\d\d`). -/
def take4Digits (s : List Char) : Option (Nat × List Char) :=
  match s with
  | c1 :: c2 :: c3 :: c4 :: rest =>
    if isDig c1 && isDig c2 && isDig c3 && isDig c4 then
      some (((digitVal c1 * 10 + digitVal c2) * 10 + digitVal c3) * 10 + digitVal c4, rest)
    else none
  | _ => none

/-- Candidate matches of `%m` (regex `1[0-2]|0[1-9]|[1-9]`), in the
regex's left-to-right preference order. -/
def monthAlts (s : List Char) : List (Nat × List Char) :=
  match s with
  | c1 :: c2 :: rest =>
    (if c1 = '1' ∧ '0' ≤ c2 ∧ c2 ≤ '2' then [(10 + digitVal c2, rest)] else []) ++
    (if c1 = '0' ∧ '1' ≤ c2 ∧ c2 ≤ '9' then [(digitVal c2, rest)] else []) ++
    (if '1' ≤ c1 ∧ c1 ≤ '9' then [(digitVal c1, c2 :: rest)] else [])
  | [c1] => if '1' ≤ c1 ∧ c1 ≤ '9' then [(digitVal c1, [])] else []
  | [] => []

/-- Candidate matches of `%d` (regex `3[01]|[12]\d|0[1-9]|[1-9]`), in the
regex's left-to-right preference order. -/
def dayAlts (s : List Char) : List (Nat × List Char) :=
  match s with
  | c1 :: c2 :: rest =>
    (if c1 = '3' ∧ '0' ≤ c2 ∧ c2 ≤ '1' then [(30 + digitVal c2, rest)] else []) ++
    (if ('1' ≤ c1 ∧ c1 ≤ '2') ∧ isDig c2 = true then
      [(digitVal c1 * 10 + digitVal c2, rest)] else []) ++
    (if c1 = '0' ∧ '1' ≤ c2 ∧ c2 ≤ '9' then [(digitVal c2, rest)] else []) ++
    (if '1' ≤ c1 ∧ c1 ≤ '9' then [(digitVal c1, c2 :: rest)] else [])
  | [c1] => if '1' ≤ c1 ∧ c1 ≤ '9' then [(digitVal c1, [])] else []
  | [] => []

/-- Regex matching of a pattern against input, with the regex engine's
leftmost-first backtracking (the first alternative whose continuation
matches wins) and the full-match requirement of `_strptime`
(`len(data_string) != found.end()` raises). -/
def matchToks : List Token → List Char → DateFields → Option DateFields
  | [], s, f => if s.isEmpty then some f else none
  | Token.dirY :: ts, s, f =>
    match take4Digits s with
    | some (v, rest) => matchToks ts rest { f with fy := some v }
    | none => none
  | Token.dirm :: ts, s, f =>
    List.findSome? (fun vr => matchToks ts vr.2 { f with fm := some vr.1 }) (monthAlts s)
  | Token.dird :: ts, s, f =>
    List.findSome? (fun vr => matchToks ts vr.2 { f with fd := some vr.1 }) (dayAlts s)
  | Token.lit c :: ts, s, f =>
    match s with
    | c1 :: rest => if c1 = c then matchToks ts rest f else none
    | [] => none

/-- A calendar date as year/month/day numbers. -/
structure Date where
  year : Nat
  month : Nat
  day : Nat
deriving DecidableEq, Repr

/-- Gregorian leap-year rule. -/
def isLeap (y : Nat) : Bool := y % 4 = 0 && (y % 100 ≠ 0 || y % 400 = 0)

/-- Number of days of month `m` in year `y`. -/
def daysInMonth (y m : Nat) : Nat :=
  if m = 2 then (if isLeap y then 29 else 28)
  else if m = 4 ∨ m = 6 ∨ m = 9 ∨ m = 11 then 30
  else 31

/-- The date exists in Python's `datetime` calendar: year in
`MINYEAR..MAXYEAR = 1..9999`, month in `1..12`, day in
`1..daysInMonth`. -/
def validDate (d : Date) : Bool :=
  1 ≤ d.year && d.year ≤ 9999 && 1 ≤ d.month && d.month ≤ 12 &&
  1 ≤ d.day && d.day ≤ daysInMonth d.year d.month

/-- The number of occurrences of token `t` in pattern `P`. -/
def dirCount (P : List Token) (t : Token) : Nat :=
  (P.filter (fun x => x = t)).length

/-- A format that repeats a directive makes `_strptime` fail when
compiling the regex (duplicate group name), so it never parses. -/
def noDupDirs (P : List Token) : Bool :=
  dirCount P Token.dirY ≤ 1 && dirCount P Token.dirm ≤ 1 && dirCount P Token.dird ≤ 1

/-- The failure raised by `datetime.strptime` on input that does not match
the pattern or names a non-existent calendar date (`ValueError`). -/
inductive DateError where
  | invalidDate
deriving DecidableEq, Repr

/-- `datetime.strptime(s, P)` restricted to the date fields: match the
pattern, default missing fields to 1900-01-01, reject non-existent
dates. -/
def parseDate (s : List Char) (P : List Token) : Option Date :=
  if noDupDirs P then
    match matchToks P s emptyFields with
    | some f =>
      let d : Date := ⟨f.fy.getD 1900, f.fm.getD 1, f.fd.getD 1⟩
      if validDate d then some d else none
    | none => none
  else none

/-- Rendering of one pattern element by `strftime`. -/
def strftimeTok (d : Date) (t : Token) : List Char :=
  match t with
  | Token.dirY => natStr d.year
  | Token.dirm => pad2 d.month
  | Token.dird => pad2 d.day
  | Token.lit c => [c]

/-- `d.strftime(P)` restricted to the date fields. -/
def strftime (d : Date) (P : List Token) : List Char :=
  (P.map (strftimeTok d)).flatten

/-- `convert_date_format(date_str, from_format, to_format)` from
`src/src/main.py`: parse with the source pattern, re-render with the
target pattern; any `strptime` failure propagates as a `ValueError`. -/
def convert_date_format (s : List Char) (fromP toP : List Token) :
    Except DateError (List Char) :=
  match parseDate s fromP with
  | some d => Except.ok (strftime d toP)
  | none => Except.error DateError.invalidDate

instance {ε α : Type} [DecidableEq ε] [DecidableEq α] : DecidableEq (Except ε α) :=
  fun a b =>
    match a, b with
    | Except.ok x, Except.ok y =>
      if h : x = y then isTrue (by rw [h])
      else isFalse (by intro hh; injection hh with hh; exact h hh)
    | Except.error x, Except.error y =>
      if h : x = y then isTrue (by rw [h])
      else isFalse (by intro hh; injection hh with hh; exact h hh)
    | Except.ok _, Except.error _ => isFalse (by intro hh; exact Except.noConfusion hh)
    | Except.error _, Except.ok _ => isFalse (by intro hh; exact Except.noConfusion hh)

/-! ### Decimal-rendering lemmas -/

theorem digitChar_isDig (n : Nat) (h : n < 10) : isDig (digitChar n) = true := by
  interval_cases n <;> decide

theorem digitVal_digitChar (n : Nat) (h : n < 10) : digitVal (digitChar n) = n := by
  interval_cases n <;> decide

theorem toDec_fuel_irrel (f1 : Nat) :
    ∀ (f2 n : Nat), n < f1 → n < f2 → toDec f1 n = toDec f2 n := by
  induction f1 with
  | zero =>
    intro f2 n h1 _
    exact absurd h1 (Nat.not_lt_zero n)
  | succ g ih =>
    intro f2 n h1 h2
    cases f2 with
    | zero => exact absurd h2 (Nat.not_lt_zero n)
    | succ g2 =>
      by_cases hn : n < 10
      · simp [toDec, hn]
      · simp only [toDec, if_neg hn]
        rw [ih g2 (n / 10) (by omega) (by omega)]

theorem natStr_small (n : Nat) (h : n < 10) : natStr n = [digitChar n] := by
  simp [natStr, toDec, h]

theorem natStr_step (n : Nat) (h : 10 ≤ n) :
    natStr n = natStr (n / 10) ++ [digitChar (n % 10)] := by
  unfold natStr
  have h1 : toDec (n + 1) n = toDec n (n / 10) ++ [digitChar (n % 10)] := by
    simp [toDec, Nat.not_lt.mpr h]
  rw [h1]
  rw [toDec_fuel_irrel n (n / 10 + 1) (n / 10) (by omega) (by omega)]

theorem natStr_four_digits (y : Nat) (h1 : 1000 ≤ y) (h2 : y ≤ 9999) :
    natStr y = [digitChar (y / 1000), digitChar (y / 100 % 10),
                digitChar (y / 10 % 10), digitChar (y % 10)] := by
  have e2 : y / 10 / 10 = y / 100 := by
    rw [Nat.div_div_eq_div_mul]
  have e3 : y / 100 / 10 = y / 1000 := by
    rw [Nat.div_div_eq_div_mul]
  rw [natStr_step y (by omega)]
  rw [natStr_step (y / 10) (by omega)]
  rw [e2]
  rw [natStr_step (y / 100) (by omega)]
  rw [e3]
  rw [natStr_small (y / 1000) (by omega)]
  simp

theorem take4Digits_natStr (y : Nat) (h1 : 1000 ≤ y) (h2 : y ≤ 9999) (rest : List Char) :
    take4Digits (natStr y ++ rest) = some (y, rest) := by
  rw [natStr_four_digits y h1 h2]
  simp only [List.cons_append, List.nil_append, take4Digits]
  rw [digitChar_isDig (y / 1000) (by omega), digitChar_isDig (y / 100 % 10) (by omega),
      digitChar_isDig (y / 10 % 10) (by omega), digitChar_isDig (y % 10) (by omega)]
  rw [digitVal_digitChar (y / 1000) (by omega), digitVal_digitChar (y / 100 % 10) (by omega),
      digitVal_digitChar (y / 10 % 10) (by omega), digitVal_digitChar (y % 10) (by omega)]
  have hval : ((y / 1000 * 10 + y / 100 % 10) * 10 + y / 10 % 10) * 10 + y % 10 = y := by
    omega
  simp [hval]

/-! ### Matcher consumption lemmas

For input produced by `strftime`, each directive consumes exactly its own
rendering: the regex's two-digit alternatives are tried before the
one-digit fallback, and a fallback that leaves a digit in front of a
non-digit separator fails its continuation, so the leftmost-first search
returns the intended fields. -/

theorem matchToks_lit (c : Char) (ts : List Token) (s : List Char) (f : DateFields) :
    matchToks (Token.lit c :: ts) (c :: s) f = matchToks ts s f := by
  simp [matchToks]

theorem matchToks_dirY (ts : List Token) (y : Nat) (h1 : 1000 ≤ y) (h2 : y ≤ 9999)
    (rest : List Char) (f : DateFields) :
    matchToks (Token.dirY :: ts) (natStr y ++ rest) f =
      matchToks ts rest { f with fy := some y } := by
  simp [matchToks, take4Digits_natStr y h1 h2 rest]

theorem matchToks_dirm_any (m : Nat) (hm1 : 1 ≤ m) (hm2 : m ≤ 12)
    (ts : List Token) (rest : List Char) (f r : DateFields)
    (hcont : matchToks ts rest { f with fm := some m } = some r) :
    matchToks (Token.dirm :: ts) (pad2 m ++ rest) f = some r := by
  interval_cases m <;>
    simp_all [matchToks, monthAlts, pad2, natStr, toDec, digitChar, digitVal,
      List.findSome?]

theorem matchToks_dird_any (d : Nat) (hd1 : 1 ≤ d) (hd2 : d ≤ 31)
    (ts : List Token) (rest : List Char) (f r : DateFields)
    (hcont : matchToks ts rest { f with fd := some d } = some r) :
    matchToks (Token.dird :: ts) (pad2 d ++ rest) f = some r := by
  interval_cases d <;>
    simp_all [matchToks, dayAlts, pad2, natStr, toDec, digitChar, digitVal,
      List.findSome?]

/-! ### Round-trip of parsing after rendering -/

theorem validDate_iff (d : Date) :
    validDate d = true ↔
      1 ≤ d.year ∧ d.year ≤ 9999 ∧ 1 ≤ d.month ∧ d.month ≤ 12 ∧
      1 ≤ d.day ∧ d.day ≤ daysInMonth d.year d.month := by
  simp [validDate, Bool.and_eq_true, decide_eq_true_eq, and_assoc]

theorem daysInMonth_le_31 (y m : Nat) : daysInMonth y m ≤ 31 := by
  unfold daysInMonth
  split
  · split <;> omega
  · split <;> omega

/-- The fields produced when every directive of `ts` consumes its own
rendering of `d` (directives overwrite left to right, literals change
nothing). -/
def fieldsAfter (d : Date) : DateFields → List Token → DateFields
  | f, [] => f
  | f, Token.dirY :: ts => fieldsAfter d { f with fy := some d.year } ts
  | f, Token.dirm :: ts => fieldsAfter d { f with fm := some d.month } ts
  | f, Token.dird :: ts => fieldsAfter d { f with fd := some d.day } ts
  | f, Token.lit _ :: ts => fieldsAfter d f ts

theorem fieldsAfter_fy (d : Date) (ts : List Token) :
    ∀ f : DateFields, (fieldsAfter d f ts).fy =
      if Token.dirY ∈ ts then some d.year else f.fy := by
  induction ts with
  | nil => intro f; simp [fieldsAfter]
  | cons a ts ih =>
    intro f
    cases a <;> simp [fieldsAfter, ih, List.mem_cons]

theorem fieldsAfter_fm (d : Date) (ts : List Token) :
    ∀ f : DateFields, (fieldsAfter d f ts).fm =
      if Token.dirm ∈ ts then some d.month else f.fm := by
  induction ts with
  | nil => intro f; simp [fieldsAfter]
  | cons a ts ih =>
    intro f
    cases a <;> simp [fieldsAfter, ih, List.mem_cons]

theorem fieldsAfter_fd (d : Date) (ts : List Token) :
    ∀ f : DateFields, (fieldsAfter d f ts).fd =
      if Token.dird ∈ ts then some d.day else f.fd := by
  induction ts with
  | nil => intro f; simp [fieldsAfter]
  | cons a ts ih =>
    intro f
    cases a <;> simp [fieldsAfter, ih, List.mem_cons]

theorem fieldsAfter_complete (d : Date) (P : List Token)
    (hY : Token.dirY ∈ P) (hM : Token.dirm ∈ P) (hD : Token.dird ∈ P) :
    fieldsAfter d emptyFields P = ⟨some d.year, some d.month, some d.day⟩ := by
  have h1 := fieldsAfter_fy d P emptyFields
  have h2 := fieldsAfter_fm d P emptyFields
  have h3 := fieldsAfter_fd d P emptyFields
  rw [if_pos hY] at h1
  rw [if_pos hM] at h2
  rw [if_pos hD] at h3
  cases hF : fieldsAfter d emptyFields P with
  | mk a b c =>
    rw [hF] at h1 h2 h3
    simp only [DateFields.mk.injEq]
    exact ⟨h1, h2, h3⟩

/-- Rendering then matching recovers exactly the rendered fields, for an
arbitrary pattern: each directive's intended (zero-padded, resp. exactly
four-digit) alternative is the first locally matching one in the regex's
preference order, and its continuation succeeds, so the leftmost-first
search never takes a fallback. -/
theorem matchToks_strftime (d : Date) (hy : 1000 ≤ d.year) (h2 : d.year ≤ 9999)
    (h3 : 1 ≤ d.month) (h4 : d.month ≤ 12) (h5 : 1 ≤ d.day) (hd31 : d.day ≤ 31)
    (ts : List Token) :
    ∀ f : DateFields,
      matchToks ts ((ts.map (strftimeTok d)).flatten) f = some (fieldsAfter d f ts) := by
  induction ts with
  | nil => intro f; rfl
  | cons a ts ih =>
    intro f
    cases a with
    | dirY =>
      simp only [List.map_cons, List.flatten_cons, strftimeTok]
      rw [matchToks_dirY ts d.year hy h2]
      rw [ih]
      rfl
    | dirm =>
      simp only [List.map_cons, List.flatten_cons, strftimeTok]
      exact matchToks_dirm_any d.month h3 h4 ts _ f _ (ih _)
    | dird =>
      simp only [List.map_cons, List.flatten_cons, strftimeTok]
      exact matchToks_dird_any d.day h5 hd31 ts _ f _ (ih _)
    | lit c =>
      simp only [List.map_cons, List.flatten_cons, strftimeTok]
      rw [List.singleton_append]
      rw [matchToks_lit, ih]
      rfl

theorem dirCount_pos_mem (P : List Token) (t : Token) (h : 1 ≤ dirCount P t) :
    t ∈ P := by
  induction P with
  | nil => simp [dirCount] at h
  | cons a ts ih =>
    by_cases hat : a = t
    · subst hat
      exact List.mem_cons_self a ts
    · apply List.mem_cons_of_mem
      apply ih
      simpa [dirCount, List.filter_cons, hat] using h

/-- Parsing after rendering recovers the date, for every pattern in which
each of the three date directives occurs exactly once. -/
theorem parseDate_strftime_complete (d : Date) (P : List Token)
    (hv : validDate d = true) (hy : 1000 ≤ d.year)
    (hY : dirCount P Token.dirY = 1) (hM : dirCount P Token.dirm = 1)
    (hD : dirCount P Token.dird = 1) :
    parseDate (strftime d P) P = some d := by
  obtain ⟨g1, g2, g3, g4, g5, g6⟩ := (validDate_iff d).mp hv
  have hd31 : d.day ≤ 31 := le_trans g6 (daysInMonth_le_31 d.year d.month)
  have hfields := matchToks_strftime d hy g2 g3 g4 g5 hd31 P emptyFields
  unfold parseDate strftime
  rw [if_pos (by simp [noDupDirs, hY, hM, hD])]
  rw [hfields]
  rw [fieldsAfter_complete d P (dirCount_pos_mem P Token.dirY (by omega))
    (dirCount_pos_mem P Token.dirm (by omega)) (dirCount_pos_mem P Token.dird (by omega))]
  show (if validDate d = true then some d else none) = some d
  rw [if_pos hv]

/-! ### Claim theorems about `convert_date_format` -/

/-- C2 (as stated) is false: rendering a valid date with a pattern
`P1`, converting from `P1` to `P2`, and rendering directly with `P2` can
disagree.  First refutation: `P1 = "%m-%d"` omits the year directive, so
the year of `d = 2023-05-15` is replaced by the default 1900.  Second
refutation: for `d = 0005-01-01`, `strftime` renders `%Y` as the unpadded
`"5"`, which the `%Y` directive (exactly four digits) cannot parse back,
so the conversion fails instead of returning a string.  Third refutation:
`P1 = "%Y-%m-%d-%Y"` repeats a directive, which makes `strptime` fail
when compiling the format's regex (duplicate group name), so the
conversion fails. -/
theorem c2_roundtrip_counterexample :
    (validDate ⟨2023, 5, 15⟩ = true ∧
      convert_date_format (strftime ⟨2023, 5, 15⟩ fmtMd) fmtMd fmtYmd ≠
        Except.ok (strftime ⟨2023, 5, 15⟩ fmtYmd)) ∧
    (validDate ⟨5, 1, 1⟩ = true ∧
      convert_date_format (strftime ⟨5, 1, 1⟩ fmtYmd) fmtYmd fmtYmd ≠
        Except.ok (strftime ⟨5, 1, 1⟩ fmtYmd)) ∧
    (validDate ⟨2023, 5, 15⟩ = true ∧
      convert_date_format (strftime ⟨2023, 5, 15⟩ fmtYmdY) fmtYmdY fmtYmd ≠
        Except.ok (strftime ⟨2023, 5, 15⟩ fmtYmd)) := by
  refine ⟨⟨by decide, by decide⟩, ⟨by decide, by decide⟩, ⟨by decide, by decide⟩⟩

/-- C2 amended: the round-trip identity
`convert_date_format(render(d, P1), P1, P2) = render(d, P2)` holds for
every valid calendar date `d` whose year has four digits (`1000 ≤ year`),
every from-pattern `P1` in which each of the year, month and day
directives occurs exactly once — excluding only the patterns the
counterexamples show broken: those omitting a date field and those
repeating a directive — and every to-pattern `P2` whatsoever. -/
theorem c2_roundtrip_amended (d : Date) (p1 p2 : List Token)
    (hv : validDate d = true) (hy : 1000 ≤ d.year)
    (h1Y : dirCount p1 Token.dirY = 1) (h1m : dirCount p1 Token.dirm = 1)
    (h1d : dirCount p1 Token.dird = 1) :
    convert_date_format (strftime d p1) p1 p2 = Except.ok (strftime d p2) := by
  unfold convert_date_format
  rw [parseDate_strftime_complete d p1 hv hy h1Y h1m h1d]

theorem c2_roundtrip_amended_witness :
    convert_date_format (strftime ⟨2023, 8, 15⟩ fmtYmd) fmtYmd fmtDmY =
      Except.ok (strftime ⟨2023, 8, 15⟩ fmtDmY) :=
  c2_roundtrip_amended ⟨2023, 8, 15⟩ fmtYmd fmtDmY (by decide) (by decide)
    (by decide) (by decide) (by decide)

/-- C5: `convert_date_format("2023-02-30", "%Y-%m-%d", "%d/%m/%Y")` fails
with the `ValueError` condition (February 30 does not exist), and in
general `convert_date_format` fails with that condition whenever the text
does not parse under the source pattern — be it for not matching the
pattern's shape or for naming a non-existent calendar date. -/
theorem c5_invalid_date_rejected :
    convert_date_format ("2023-02-30".toList) fmtYmd fmtDmY =
      Except.error DateError.invalidDate ∧
    ∀ (s : List Char) (p1 p2 : List Token), parseDate s p1 = none →
      convert_date_format s p1 p2 = Except.error DateError.invalidDate := by
  constructor
  · decide
  · intro s p1 p2 h
    unfold convert_date_format
    rw [h]

theorem c5_invalid_date_rejected_witness :
    convert_date_format ("2023-XX-15".toList) fmtYmd fmtDmY =
      Except.error DateError.invalidDate :=
  c5_invalid_date_rejected.2 ("2023-XX-15".toList) fmtYmd fmtDmY (by decide)

/-- C7: `convert_date_format` is deterministic and referentially
transparent — it is a pure function of its three arguments, so any two
runs on equal inputs return equal results (the same output string or the
same error). -/
theorem c7_deterministic (s s' : List Char) (p1 p1' p2 p2' : List Token)
    (hs : s = s') (h1 : p1 = p1') (h2 : p2 = p2') :
    convert_date_format s p1 p2 = convert_date_format s' p1' p2' := by
  rw [hs, h1, h2]

theorem c7_deterministic_witness :
    convert_date_format ("2023-08-15".toList) fmtYmd fmtDmY =
      convert_date_format ("2023-08-15".toList) fmtYmd fmtDmY :=
  c7_deterministic ("2023-08-15".toList) ("2023-08-15".toList) fmtYmd fmtYmd
    fmtDmY fmtDmY rfl rfl rfl

/-- C10: a from-pattern may omit date fields present in the to-pattern;
`strptime` fills the missing fields with its defaults (year 1900, month 1,
day 1), so `convert_date_format("05", "%d", "%Y-%m-%d")` returns
`"1900-01-05"` rather than failing. -/
theorem c10_defaults_fill_missing_fields :
    convert_date_format ("05".toList) [Token.dird] fmtYmd =
      Except.ok ("1900-01-05".toList) ∧
    parseDate ("05".toList) [Token.dird] = some ⟨1900, 1, 5⟩ := by
  constructor
  · decide
  · decide

end HypothesisSandbox
